import Mathlib

/-!
Shallow embedding of the heat-plate controller (ws_hat_controller.py).

Python floats are modelled as rationals (ℚ); `None`-able values as `Option`;
`raise ValueError` as `Except.error`; GPIO side effects as an explicit trace
of `GpioAction` values returned alongside the new state; the MQTT transport
as a list of issued publish calls.
-/

/-- Power status of the relay, the `_power_status` Literal["on", "off"] field. -/
inductive PowerStatus where
  | on
  | off
deriving DecidableEq, Repr

/-- GPIO side effects the program can issue on the relay pin.
`setupIn` is `GPIO.setup(pin, GPIO.IN)` (release the pin to floating/input);
`setupOut` is `GPIO.setup(pin, GPIO.OUT)` (actively drive the pin);
`output` is `GPIO.output(pin, level)` (a logic-level write; level false = LOW).
The source never calls `GPIO.output` on the relay pin, and the constructor is
included so that absence is a provable, non-vacuous statement. -/
inductive GpioAction where
  | setupIn (pin : Nat)
  | setupOut (pin : Nat)
  | output (pin : Nat) (level : Bool)
deriving DecidableEq, Repr

/-- Test for the "drive pin to logic low" write, `GPIO.output(pin, GPIO.LOW)`. -/
def isDriveLow : GpioAction → Bool
  | GpioAction.output _ false => true
  | _ => false

/-- GlobalConfig.heat_plate_relay_gpio default (line 58 of the source). -/
def heat_plate_relay_gpio : Nat := 12

/-- CalibrationPoint dataclass: (sensor readout, actual temperature). -/
structure CalibrationPoint where
  sensor : ℚ
  actual : ℚ
deriving DecidableEq, Repr

/-- Measurement dataclass. The timestamp is an opaque instant; raw and
calibrated temperatures are absent when the sensor channel is unavailable. -/
structure Measurement where
  time : ℤ
  raw_celsius : Option ℚ
  calibrated_celsius : Option ℚ
deriving DecidableEq, Repr

/-- Round half to even, the tie-breaking rule of builtin `round`. -/
def roundHalfEven (x : ℚ) : ℤ :=
  let f := Int.floor x
  let frac := x - f
  if frac < 1/2 then f
  else if 1/2 < frac then f + 1
  else if f % 2 = 0 then f else f + 1

/-- Rounding to one decimal place, `round(x, 1)`. -/
def round1 (x : ℚ) : ℚ := (roundHalfEven (x * 10) : ℚ) / 10

/-- TemperatureGetter.apply_calibration: identity when `_calibration is None`,
otherwise `raw_temp * slope + intercept`. -/
def apply_calibration (calibration : Option (ℚ × ℚ)) (raw_temp : ℚ) : ℚ :=
  match calibration with
  | none => raw_temp
  | some si => raw_temp * si.1 + si.2

/-- Least-squares degree-1 fit (`np.polyfit(xs, ys, 1)`) in closed form:
slope and intercept of the ordinary least-squares line of ys against xs. -/
def polyfit1 (xs ys : List ℚ) : ℚ × ℚ :=
  let n : ℚ := xs.length
  let sx := xs.sum
  let sy := ys.sum
  let sxx := (xs.map (fun v => v * v)).sum
  let sxy := (List.zipWith (fun a b => a * b) xs ys).sum
  let slope := (n * sxy - sx * sy) / (n * sxx - sx * sx)
  let intercept := (sy - slope * sx) / n
  (slope, intercept)

/-- TemperatureGetter.calibrate_sensor: `None` (no calibration) for an empty
point list, otherwise the least-squares (slope, intercept) pair. -/
def calibrate_sensor (calibration_points : List CalibrationPoint) : Option (ℚ × ℚ) :=
  if calibration_points.isEmpty then none
  else some (polyfit1 (calibration_points.map (fun p => p.sensor))
                      (calibration_points.map (fun p => p.actual)))

/-- TemperatureGetter.get_current_measurement. `readout` is the value of
`latest_result.get("external temperature")` (absent when the channel is
unavailable this cycle); `now` the captured UTC timestamp. When the raw
reading is present the calibrated value is `round(apply_calibration(raw), 1)`. -/
def get_current_measurement (calibration : Option (ℚ × ℚ)) (now : ℤ)
    (readout : Option ℚ) : Measurement :=
  match readout with
  | none => { time := now, raw_celsius := none, calibrated_celsius := none }
  | some raw =>
      { time := now, raw_celsius := some raw,
        calibrated_celsius := some (round1 (apply_calibration calibration raw)) }

/-- HeatingMode: named operating envelope with hysteresis bounds. -/
structure HeatingMode where
  NAME : String
  lower_limit : ℚ
  upper_limit : ℚ
  display_name : String
deriving DecidableEq, Repr

/-- HeatingMode("natto", 39.8, 40.5). -/
def nattoMode : HeatingMode :=
  { NAME := "natto", lower_limit := 39.8, upper_limit := 40.5, display_name := "natto" }

/-- HeatingMode("greek yogurt", 42.0, 43.0, display_name="greek"). -/
def greekYogurtMode : HeatingMode :=
  { NAME := "greek yogurt", lower_limit := 42.0, upper_limit := 43.0, display_name := "greek" }

/-- HeatingMode("free", 0.0, 100.0). -/
def freeMode : HeatingMode :=
  { NAME := "free", lower_limit := 0.0, upper_limit := 100.0, display_name := "free" }

/-- HeatingController.AVAILABLE_MODES, the fixed ordered catalog. -/
def AVAILABLE_MODES : List HeatingMode := [nattoMode, greekYogurtMode, freeMode]

/-- Mutable state of the HeatingController singleton: current mode and power. -/
structure ControllerState where
  current_mode : HeatingMode
  power : PowerStatus
deriving DecidableEq, Repr

/-- HeatingController.turn_off: sets `_power_status = "off"` and releases the
relay pin to input/floating mode (`GPIO.setup(pin, GPIO.IN)`), never a
logic-level write. -/
def turn_off (s : ControllerState) : ControllerState × List GpioAction :=
  ({ s with power := PowerStatus.off }, [GpioAction.setupIn heat_plate_relay_gpio])

/-- HeatingController.turn_on: sets `_power_status = "on"` and switches the
relay pin to actively-driven output mode (`GPIO.setup(pin, GPIO.OUT)`). -/
def turn_on (s : ControllerState) : ControllerState × List GpioAction :=
  ({ s with power := PowerStatus.on }, [GpioAction.setupOut heat_plate_relay_gpio])

/-- HeatingController.change_to_mode: picks the first catalog entry whose NAME
matches (`matching_modes[0]`); raises ValueError (no state change) when the
filtered list is empty. Issues no GPIO action and does not touch power.
The `headD freeMode` default is never reached: it stands for the partial
indexing `matching_modes[0]` on a list known to be nonempty. -/
def change_to_mode (s : ControllerState) (new_mode : String) : Except String ControllerState :=
  let matching_modes := AVAILABLE_MODES.filter (fun m => m.NAME == new_mode)
  if matching_modes.isEmpty then
    Except.error ("No heating mode named " ++ new_mode ++ " found.")
  else
    Except.ok { s with current_mode := matching_modes.headD freeMode }

/-- HeatingController.__init__(mode): looks the mode up in the catalog
(ValueError if absent), stores it, then calls turn_on(). -/
def HeatingController_init (mode : String) : Except String (ControllerState × List GpioAction) :=
  let matching_modes := AVAILABLE_MODES.filter (fun m => m.NAME == mode)
  if matching_modes.isEmpty then
    Except.error ("No heating mode named " ++ mode ++ " found.")
  else
    Except.ok (turn_on { current_mode := matching_modes.headD freeMode,
                         power := PowerStatus.off })

/-- GPIO trace of HeatingController.__init__(mode) (empty when it raises). -/
def initTrace (mode : String) : List GpioAction :=
  (((HeatingController_init mode).toOption).map Prod.snd).getD []

/-- handle_key_2: `AVAILABLE_MODES.index(current mode)` (ValueError when the
current mode is not in the catalog), advance the index by 1 modulo the catalog
length, and `change_to_mode` to the NAME of that next entry. -/
def handle_key_2 (s : ControllerState) : Except String ControllerState :=
  let idx := AVAILABLE_MODES.findIdx? (fun m => m == s.current_mode)
  if idx.isNone then Except.error "current mode not found in AVAILABLE_MODES"
  else
    let current_mode_index := idx.getD 0
    let next_index := (current_mode_index + 1) % AVAILABLE_MODES.length
    change_to_mode s (AVAILABLE_MODES.getD next_index freeMode).NAME

/-- Iterated mode cycling: n presses of key 2 in sequence. -/
def cycleModeN : Nat → ControllerState → Except String ControllerState
  | 0, s => Except.ok s
  | n + 1, s => (handle_key_2 s).bind (cycleModeN n)

/-- Topic suffix construction of the slow-cadence tick (the source variable is
named topic_postfix): mode name "natto" and mode name "yogurt" get
human-friendly suffixes; every other mode name is used verbatim. -/
def topic_suffix (mode : HeatingMode) : String :=
  if mode.NAME == "natto" then "inside natto bowl"
  else if mode.NAME == "yogurt" then "inside yogurt bowl"
  else mode.NAME

/-- Telemetry topic string of the slow-cadence tick. -/
def topic (mode : HeatingMode) : String :=
  "environment/sensors/devices/" ++ topic_suffix mode

/-- Telemetry payload contents (raw temperature, corrected temperature, power),
the dict serialized by json.dumps in the source. -/
structure Payload where
  temper_temperature : ℚ
  corrected_temperature : ℚ
  heat_plate_power : PowerStatus
deriving DecidableEq, Repr

/-- Thermostat evaluation of the slow-cadence tick (the if/elif/else at the
bottom of the loop body): turn on when Off and strictly below the lower limit,
turn off when On and strictly above the upper limit, otherwise no transition. -/
def thermostatEval (s : ControllerState) (t : ℚ) : ControllerState × List GpioAction :=
  if s.power = PowerStatus.off ∧ t < s.current_mode.lower_limit then turn_on s
  else if s.power = PowerStatus.on ∧ t > s.current_mode.upper_limit then turn_off s
  else (s, [])

/-- Bounded history ring: `deque(maxlen=100)` keeps the most recent 100
entries, evicting the oldest on append. -/
def appendHistory (h : List Measurement) (m : Measurement) : List Measurement :=
  let h2 := h ++ [m]
  if 100 < h2.length then h2.drop (h2.length - 100) else h2

/-- State owned by the control loop: the controller singleton plus the display
history deque (canvas.temperature_records). -/
structure LoopState where
  ctrl : ControllerState
  history : List Measurement
deriving DecidableEq, Repr

/-- Observable effects of one slow-cadence tick: warning log lines, the extra
backoff sleep in seconds (`time.sleep(5)` before `continue`), the MQTT
transport calls issued (topic, payload), and the GPIO actions issued. -/
structure TickEffects where
  warnings : Nat
  extraSleepSeconds : Option Nat
  publishes : List (String × Payload)
  gpio : List GpioAction
deriving DecidableEq, Repr

/-- One slow-cadence tick of the main loop (the body guarded by
`tN - LAST_POLL_TIME > TEMPERATURE_POLL_FREQUENCY_SECONDS`): take a
measurement; when its raw reading is absent, log a warning, sleep 5 extra
seconds and continue with nothing else done; otherwise append to history,
build topic and payload, publish exactly when `should_push` is set and the
mode is not "free", then run the thermostat evaluation. -/
def slowTick (should_push : Bool) (calibration : Option (ℚ × ℚ)) (now : ℤ)
    (st : LoopState) (readout : Option ℚ) : LoopState × TickEffects :=
  let m := get_current_measurement calibration now readout
  match readout with
  | none =>
      (st, { warnings := 1, extraSleepSeconds := some 5, publishes := [], gpio := [] })
  | some raw =>
      let t := round1 (apply_calibration calibration raw)
      let mode := st.ctrl.current_mode
      let history1 := appendHistory st.history m
      let payload : Payload :=
        { temper_temperature := raw, corrected_temperature := t,
          heat_plate_power := st.ctrl.power }
      let publishes :=
        if should_push ∧ mode.NAME ≠ "free" then [(topic mode, payload)] else []
      let r := thermostatEval st.ctrl t
      ({ ctrl := r.1, history := history1 },
       { warnings := 0, extraSleepSeconds := none, publishes := publishes, gpio := r.2 })

/-- Invariant of Claim C10: the current mode is a catalog entry. -/
def ModeInv (s : ControllerState) : Prop := s.current_mode ∈ AVAILABLE_MODES

instance : DecidablePred ModeInv := fun s =>
  inferInstanceAs (Decidable (s.current_mode ∈ AVAILABLE_MODES))

/-- Helper: the first element of a nonempty filtered list is an element of the
original list and satisfies the filter predicate. -/
theorem filter_headD_mem {α : Type} (p : α → Bool) (l : List α) (d : α)
    (h : (l.filter p).isEmpty = false) :
    (l.filter p).headD d ∈ l ∧ p ((l.filter p).headD d) = true := by
  rcases hf : l.filter p with _ | ⟨a, as⟩
  · rw [hf] at h
    simp at h
  · have ha : a ∈ l.filter p := by
      rw [hf]
      exact List.mem_cons_self a as
    simp only [List.headD]
    exact ⟨List.mem_of_mem_filter ha, List.of_mem_filter ha⟩

/-- Claim C1: turn_off sets power to Off and releases the relay pin to
input/floating mode (GPIO.setup(pin, GPIO.IN)); turn_on sets power to On and
switches the pin to actively-driven output mode (GPIO.setup(pin, GPIO.OUT));
and no HeatingController operation (turn_off, turn_on, construction, or the
thermostat evaluation that invokes them) ever issues a drive-pin-logic-low
write to the relay pin. -/
theorem C1_relay_release_polarity (s : ControllerState) (t : ℚ) (name : String) :
    (turn_off s).1.power = PowerStatus.off ∧
    (turn_off s).2 = [GpioAction.setupIn heat_plate_relay_gpio] ∧
    (turn_on s).1.power = PowerStatus.on ∧
    (turn_on s).2 = [GpioAction.setupOut heat_plate_relay_gpio] ∧
    List.filter isDriveLow
      ((turn_off s).2 ++ (turn_on s).2 ++ (thermostatEval s t).2 ++ initTrace name) = [] := by
  refine ⟨rfl, rfl, rfl, rfl, ?_⟩
  have htrace : List.filter isDriveLow (initTrace name) = [] := by
    by_cases hc : (List.filter (fun m => m.NAME == name) AVAILABLE_MODES).isEmpty = true
    · simp [initTrace, HeatingController_init, hc, Except.toOption]
    · simp [initTrace, HeatingController_init, hc, turn_on, isDriveLow, Except.toOption]
  have hth : List.filter isDriveLow (thermostatEval s t).2 = [] := by
    unfold thermostatEval
    split
    · simp [turn_on, isDriveLow]
    · split
      · simp [turn_off, isDriveLow]
      · rfl
  simp only [List.filter_append, htrace, hth]
  simp [turn_on, turn_off, isDriveLow]

/-- Claim C4: a slow-cadence tick whose measurement has an absent raw reading
changes nothing (no power or mode transition, no history append), issues no
telemetry and no GPIO action, logs one warning and sleeps the fixed 5 second
backoff; the `continue` leaves the retry to a later slow-cadence tick. -/
theorem C4_absent_measurement_skips_cycle (should_push : Bool)
    (calibration : Option (ℚ × ℚ)) (now : ℤ) (st : LoopState) :
    slowTick should_push calibration now st none =
      (st, { warnings := 1, extraSleepSeconds := some 5, publishes := [], gpio := [] }) := rfl

/-- Claim C8: the calibration model fitted from an empty point list is the
identity mapping: applying it returns its input unchanged for every x. -/
theorem C8_empty_calibration_identity (x : ℚ) :
    apply_calibration (calibrate_sensor []) x = x := by
  simp [calibrate_sensor, apply_calibration]

/-- Claim C2: the thermostat evaluation implements strict bang-bang
hysteresis. For every mode with lower_limit below or equal to upper_limit and
every calibrated temperature t: power changes exactly when Off with t strictly
below the lower limit (turning On) or On with t strictly above the upper limit
(turning Off); the mode is never changed; t exactly at a boundary makes no
transition (strict inequalities only). -/
theorem C2_strict_hysteresis (s : ControllerState) (t : ℚ)
    (h : s.current_mode.lower_limit ≤ s.current_mode.upper_limit) :
    (thermostatEval s t).1.current_mode = s.current_mode ∧
    ((thermostatEval s t).1.power ≠ s.power ↔
      (s.power = PowerStatus.off ∧ t < s.current_mode.lower_limit) ∨
      (s.power = PowerStatus.on ∧ t > s.current_mode.upper_limit)) ∧
    (s.power = PowerStatus.off → t < s.current_mode.lower_limit →
      (thermostatEval s t).1.power = PowerStatus.on) ∧
    (s.power = PowerStatus.on → t > s.current_mode.upper_limit →
      (thermostatEval s t).1.power = PowerStatus.off) ∧
    (t = s.current_mode.lower_limit → s.power = PowerStatus.off →
      (thermostatEval s t).1.power = PowerStatus.off) ∧
    (t = s.current_mode.upper_limit → s.power = PowerStatus.on →
      (thermostatEval s t).1.power = PowerStatus.on) := by
  obtain ⟨m, p⟩ := s
  cases p <;>
    simp only [thermostatEval, turn_on, turn_off] <;>
    split_ifs with h1 h2 <;>
    simp_all <;>
    intro hx <;>
    simp_all

/-- Witness for C2 at a concrete boundary input: the natto mode, power Off,
temperature exactly at the lower limit 39.8 makes no transition. -/
theorem C2_strict_hysteresis_witness :
    (thermostatEval { current_mode := nattoMode, power := PowerStatus.off } 39.8).1.power
      = PowerStatus.off := by
  have h := C2_strict_hysteresis { current_mode := nattoMode, power := PowerStatus.off } 39.8
    (by norm_num [nattoMode])
  exact h.2.2.2.2.1 rfl rfl

/-- Claim C3: on a slow-cadence tick with a valid measurement, the telemetry
transport is invoked exactly once when the telemetry-enabled flag is set and
the current mode is not the free mode, and exactly zero times otherwise (in
the free mode, regardless of the flag); the one call carries the mode-derived
topic and the measurement/power payload. -/
theorem C3_telemetry_gating (should_push : Bool) (calibration : Option (ℚ × ℚ))
    (now : ℤ) (st : LoopState) (raw : ℚ) :
    ((slowTick should_push calibration now st (some raw)).2.publishes.length =
      if should_push ∧ st.ctrl.current_mode.NAME ≠ "free" then 1 else 0) ∧
    ((slowTick should_push calibration now st (some raw)).2.publishes =
      if should_push ∧ st.ctrl.current_mode.NAME ≠ "free" then
        [(topic st.ctrl.current_mode,
          { temper_temperature := raw,
            corrected_temperature := round1 (apply_calibration calibration raw),
            heat_plate_power := st.ctrl.power })]
      else []) := by
  unfold slowTick
  constructor <;>
    dsimp only [] <;>
    split_ifs <;>
    rfl

/-- Claim C7: in every measurement produced by get_current_measurement the
calibrated temperature is absent exactly when the raw temperature is absent,
and when present it equals raw * slope + intercept rounded to one decimal
place, where (slope, intercept) is (1, 0) for the identity model. -/
theorem C7_calibrated_iff_raw (calibration : Option (ℚ × ℚ)) (now : ℤ)
    (readout : Option ℚ) :
    ((get_current_measurement calibration now readout).calibrated_celsius = none ↔
      (get_current_measurement calibration now readout).raw_celsius = none) ∧
    (∀ raw, (get_current_measurement calibration now readout).raw_celsius = some raw →
      (get_current_measurement calibration now readout).calibrated_celsius =
        some (round1 (raw * ((calibration.map Prod.fst).getD 1)
                        + ((calibration.map Prod.snd).getD 0)))) := by
  rcases readout with _ | r <;> rcases calibration with _ | ⟨slope, intercept⟩ <;>
    simp [get_current_measurement, apply_calibration]

/-- Witness for C7 at a concrete input: with calibration slope 2 and
intercept 3, a raw reading of 1 yields calibrated round1(1*2+3). -/
theorem C7_calibrated_iff_raw_witness :
    (get_current_measurement (some (2, 3)) 0 (some 1)).calibrated_celsius =
      some (round1 (1 * 2 + 3)) := by
  have h := (C7_calibrated_iff_raw (some (2, 3)) 0 (some 1)).2 1 rfl
  simpa using h

/-- Claim C5: change_to_mode with a name not in the catalog reports a
ValueError to the caller and produces no new state (mode and power unchanged
at the caller); with a name in the catalog it returns a state whose current
mode is the matching catalog entry, with power untouched. -/
theorem C5_change_to_mode (s : ControllerState) (name : String) :
    (name ∈ AVAILABLE_MODES.map HeatingMode.NAME →
      ∃ s2, change_to_mode s name = Except.ok s2 ∧
        s2.current_mode.NAME = name ∧ s2.current_mode ∈ AVAILABLE_MODES ∧
        s2.power = s.power) ∧
    (name ∉ AVAILABLE_MODES.map HeatingMode.NAME →
      change_to_mode s name = Except.error ("No heating mode named " ++ name ++ " found.")) := by
  by_cases hc : (AVAILABLE_MODES.filter (fun m => m.NAME == name)).isEmpty = true
  · constructor
    · intro hmem
      exfalso
      rw [List.isEmpty_iff] at hc
      rcases List.mem_map.mp hmem with ⟨m, hm, hname⟩
      have : m ∈ AVAILABLE_MODES.filter (fun m => m.NAME == name) :=
        List.mem_filter.mpr ⟨hm, by simp [hname]⟩
      simp [hc] at this
    · intro _
      simp [change_to_mode, hc]
  · have hhead := filter_headD_mem (fun m => m.NAME == name) AVAILABLE_MODES freeMode
      (by simpa using hc)
    constructor
    · intro _
      refine ⟨{ s with current_mode :=
          (AVAILABLE_MODES.filter (fun m => m.NAME == name)).headD freeMode },
        ?_, ?_, hhead.1, rfl⟩
      · simp [change_to_mode, hc]
      · simpa [beq_iff_eq] using hhead.2
    · intro hmem
      exfalso
      exact hmem (List.mem_map.mpr ⟨_, hhead.1, by simpa [beq_iff_eq] using hhead.2⟩)

/-- Witness for C5 at concrete inputs: the name natto is in the catalog and
change_to_mode moves a free-mode controller to the natto mode without touching
power, while the name cheese is not in the catalog and errors. -/
theorem C5_change_to_mode_witness :
    (∃ s2, change_to_mode { current_mode := freeMode, power := PowerStatus.on } "natto"
        = Except.ok s2 ∧
      s2.current_mode.NAME = "natto" ∧ s2.current_mode ∈ AVAILABLE_MODES ∧
      s2.power = PowerStatus.on) ∧
    change_to_mode { current_mode := freeMode, power := PowerStatus.on } "cheese"
      = Except.error ("No heating mode named " ++ "cheese" ++ " found.") := by
  constructor
  · exact (C5_change_to_mode { current_mode := freeMode, power := PowerStatus.on } "natto").1
      (by simp [AVAILABLE_MODES, nattoMode])
  · exact (C5_change_to_mode { current_mode := freeMode, power := PowerStatus.on } "cheese").2
      (by simp [AVAILABLE_MODES, nattoMode, greekYogurtMode, freeMode])

/-- Counterexample to Claim C6: the non-free catalog mode named "greek yogurt"
does NOT get a human-friendly topic suffix. The topic-building branch tests
for the mode name "yogurt", which no catalog entry bears, so the greek yogurt
mode falls through to the raw-mode-name case: its suffix is its raw NAME,
"greek yogurt", and not "inside yogurt bowl". -/
theorem C6_counterexample :
    greekYogurtMode ∈ AVAILABLE_MODES ∧
    greekYogurtMode.NAME = "greek yogurt" ∧
    topic_suffix greekYogurtMode = greekYogurtMode.NAME ∧
    ((topic_suffix greekYogurtMode == "inside yogurt bowl") = false) ∧
    topic greekYogurtMode = "environment/sensors/devices/greek yogurt" := by
  refine ⟨by simp [AVAILABLE_MODES], rfl, ?_, ?_, ?_⟩ <;>
    simp [topic_suffix, topic, greekYogurtMode]

/-- Claim C6 as amended: every published telemetry topic has the form
environment/sensors/devices/<suffix>, where a mode named "natto" gets the
human-friendly suffix "inside natto bowl", a mode named "yogurt" would get
"inside yogurt bowl" (no catalog entry bears that name), and every other mode,
including the catalog mode named "greek yogurt", uses its raw mode name as the
suffix; every transport call of a valid slow-cadence tick uses that topic. -/
theorem C6_topic_form (mode : HeatingMode) (should_push : Bool)
    (calibration : Option (ℚ × ℚ)) (now : ℤ) (st : LoopState) (raw : ℚ) :
    topic mode = "environment/sensors/devices/" ++ topic_suffix mode ∧
    (mode.NAME = "natto" → topic_suffix mode = "inside natto bowl") ∧
    (mode.NAME = "yogurt" → topic_suffix mode = "inside yogurt bowl") ∧
    (mode.NAME ≠ "natto" → mode.NAME ≠ "yogurt" → topic_suffix mode = mode.NAME) ∧
    (∀ p ∈ (slowTick should_push calibration now st (some raw)).2.publishes,
      p.1 = topic st.ctrl.current_mode) := by
  refine ⟨rfl, ?_, ?_, ?_, ?_⟩
  · intro h
    simp [topic_suffix, h]
  · intro h
    simp [topic_suffix, h]
  · intro h1 h2
    simp [topic_suffix, h1, h2]
  · intro p hp
    unfold slowTick at hp
    dsimp only [] at hp
    split_ifs at hp with hpush
    · simp at hp
      rw [hp]
    · simp at hp

/-- Witness for C6 as amended: the natto catalog mode gets the human-friendly
suffix, giving the topic environment/sensors/devices/inside natto bowl. -/
theorem C6_topic_form_witness :
    topic_suffix nattoMode = "inside natto bowl" := by
  exact (C6_topic_form nattoMode false none 0
    { ctrl := { current_mode := nattoMode, power := PowerStatus.on }, history := [] }
    0).2.1 rfl

/-- Claim C9: from any catalog mode, one key-2 press advances the current mode
index by 1 modulo the catalog length without altering power, and pressing
key 2 a number of times equal to the catalog length returns the controller to
exactly its original state. -/
theorem C9_mode_cycling (s : ControllerState) (h : s.current_mode ∈ AVAILABLE_MODES) :
    (∃ s2 i, handle_key_2 s = Except.ok s2 ∧ i < AVAILABLE_MODES.length ∧
      s.current_mode = AVAILABLE_MODES.getD i freeMode ∧
      s2.current_mode = AVAILABLE_MODES.getD ((i + 1) % AVAILABLE_MODES.length) freeMode ∧
      s2.power = s.power) ∧
    cycleModeN AVAILABLE_MODES.length s = Except.ok s := by
  obtain ⟨m, p⟩ := s
  simp only [AVAILABLE_MODES, List.mem_cons, List.not_mem_nil, or_false] at h
  rcases h with h | h | h <;> subst h
  · refine ⟨⟨{ current_mode := greekYogurtMode, power := p }, 0, ?_, by simp [AVAILABLE_MODES], ?_, ?_, rfl⟩, ?_⟩ <;>
      simp [handle_key_2, cycleModeN, change_to_mode, AVAILABLE_MODES, List.filter_cons,
        List.findIdx?, Except.bind, nattoMode, greekYogurtMode, freeMode, beq_iff_eq]
  · refine ⟨⟨{ current_mode := freeMode, power := p }, 1, ?_, by simp [AVAILABLE_MODES], ?_, ?_, rfl⟩, ?_⟩ <;>
      simp [handle_key_2, cycleModeN, change_to_mode, AVAILABLE_MODES, List.filter_cons,
        List.findIdx?, Except.bind, nattoMode, greekYogurtMode, freeMode, beq_iff_eq]
  · refine ⟨⟨{ current_mode := nattoMode, power := p }, 2, ?_, by simp [AVAILABLE_MODES], ?_, ?_, rfl⟩, ?_⟩ <;>
      simp [handle_key_2, cycleModeN, change_to_mode, AVAILABLE_MODES, List.filter_cons,
        List.findIdx?, Except.bind, nattoMode, greekYogurtMode, freeMode, beq_iff_eq]

/-- Witness for C9 at a concrete input: starting from the natto mode with
power Off, three key-2 presses return the controller to the same state. -/
theorem C9_mode_cycling_witness :
    cycleModeN AVAILABLE_MODES.length
        { current_mode := nattoMode, power := PowerStatus.off }
      = Except.ok { current_mode := nattoMode, power := PowerStatus.off } :=
  (C9_mode_cycling { current_mode := nattoMode, power := PowerStatus.off }
    (by simp [AVAILABLE_MODES])).2

/-- Claim C10: the current mode is always a catalog entry — it holds after
construction and is preserved by change_to_mode, turn_on, turn_off and the
thermostat evaluation — and under this invariant the key-2 lookup always
succeeds: handle_key_2 returns Except.ok (the change_to_mode it performs never
reports an invalid argument) and preserves the invariant. -/
theorem C10_mode_always_in_catalog :
    (∀ name r, HeatingController_init name = Except.ok r → ModeInv r.1) ∧
    (∀ s name s2, change_to_mode s name = Except.ok s2 → ModeInv s2) ∧
    (∀ s, (turn_on s).1.current_mode = s.current_mode ∧
      (turn_off s).1.current_mode = s.current_mode) ∧
    (∀ s t, (thermostatEval s t).1.current_mode = s.current_mode) ∧
    (∀ s, ModeInv s → ∃ s2, handle_key_2 s = Except.ok s2 ∧ ModeInv s2) := by
  refine ⟨?_, ?_, ?_, ?_, ?_⟩
  · intro name r hr
    by_cases hc : (AVAILABLE_MODES.filter (fun m => m.NAME == name)).isEmpty = true
    · simp [HeatingController_init, hc] at hr
    · have hhead := filter_headD_mem (fun m => m.NAME == name) AVAILABLE_MODES freeMode
        (by simpa using hc)
      simp [HeatingController_init, hc, turn_on] at hr
      rw [ModeInv, ← hr]
      simpa using hhead.1
  · intro s name s2 hs2
    by_cases hc : (AVAILABLE_MODES.filter (fun m => m.NAME == name)).isEmpty = true
    · simp [change_to_mode, hc] at hs2
    · have hhead := filter_headD_mem (fun m => m.NAME == name) AVAILABLE_MODES freeMode
        (by simpa using hc)
      simp [change_to_mode, hc] at hs2
      rw [ModeInv, ← hs2]
      simpa using hhead.1
  · intro s
    exact ⟨rfl, rfl⟩
  · intro s t
    unfold thermostatEval
    split_ifs <;> rfl
  · intro s hs
    obtain ⟨m, p⟩ := s
    simp only [ModeInv] at hs
    simp only [AVAILABLE_MODES, List.mem_cons, List.not_mem_nil, or_false] at hs
    rcases hs with h | h | h <;> subst h
    · refine ⟨{ current_mode := greekYogurtMode, power := p }, ?_, ?_⟩ <;>
        simp [handle_key_2, change_to_mode, ModeInv, AVAILABLE_MODES, List.filter_cons,
          List.findIdx?, nattoMode, greekYogurtMode, freeMode, beq_iff_eq]
    · refine ⟨{ current_mode := freeMode, power := p }, ?_, ?_⟩ <;>
        simp [handle_key_2, change_to_mode, ModeInv, AVAILABLE_MODES, List.filter_cons,
          List.findIdx?, nattoMode, greekYogurtMode, freeMode, beq_iff_eq]
    · refine ⟨{ current_mode := nattoMode, power := p }, ?_, ?_⟩ <;>
        simp [handle_key_2, change_to_mode, ModeInv, AVAILABLE_MODES, List.filter_cons,
          List.findIdx?, nattoMode, greekYogurtMode, freeMode, beq_iff_eq]

/-- Witness for C10 at a concrete input: from the free mode the key-2 handler
succeeds and lands on a catalog mode. -/
theorem C10_mode_always_in_catalog_witness :
    ∃ s2, handle_key_2 { current_mode := freeMode, power := PowerStatus.on }
        = Except.ok s2 ∧ ModeInv s2 :=
  C10_mode_always_in_catalog.2.2.2.2
    { current_mode := freeMode, power := PowerStatus.on }
    (by simp [ModeInv, AVAILABLE_MODES])
